import Mathlib

/-! WiFi station with reconnection: `main/wifi_handler.c`

A shallow embedding of the three pieces of `wifi_handler.c` that carry control
flow: `event_handler`, the body of the `for(;;)` loop of `ESP_WIFI_Task` and
the body of the `for(;;)` loop of `LED_Blink`.

* The globals `s_wifi_event_group`, `s_retry_num` and `connection_status` are
  the fields of `World`.
* Every call into ESP-IDF / FreeRTOS that the three pieces make, and every
  store to the cross-task global `connection_status`, is appended to
  `World.trace` at the moment the call is made.  `ESP_LOGx` calls are not
  recorded.
* `ESP_WIFI_Task` stops at two blocking calls: `xEventGroupWaitBits` with
  `portMAX_DELAY`, which returns only once an awaited bit is set, and
  `vTaskDelay`.  `event_handler` runs on the event loop task and may run while
  `ESP_WIFI_Task` is stopped in either of them: `World.wifi_task_at` is the
  point at which the task stands, `ESP_WIFI_Task_step` takes it from one point
  to the next, and `run` interleaves these steps with events.
* `s_retry_num` is a C `int`: it is an `Int` here and `s_retry_num++` wraps
  to 32 bits explicitly (`wrapInt32`).
* The event group value is a `Nat` used through `&&&`, `|||`, `^^^`, the way
  the C code uses `&` and `|`.
-/

namespace WifiReconnection

/-! ## Constants of ESP-IDF and FreeRTOS -/

/-- The type `esp_event_base_t`: the two bases the handler compares against, and
every other base, told apart by a tag. -/
inductive esp_event_base_t where
  | WIFI_EVENT
  | IP_EVENT
  | OTHER (tag : Nat)
  deriving DecidableEq, Repr

/-- The value of `WIFI_EVENT_STA_START` in `wifi_event_t` (`esp_wifi_types.h`). -/
def WIFI_EVENT_STA_START : Int := 2

/-- The value of `WIFI_EVENT_STA_DISCONNECTED` in `wifi_event_t`. -/
def WIFI_EVENT_STA_DISCONNECTED : Int := 5

/-- The value of `IP_EVENT_STA_GOT_IP` in `ip_event_t` (`esp_netif_types.h`). -/
def IP_EVENT_STA_GOT_IP : Int := 0

def BIT0 : Nat := 1
def BIT1 : Nat := 2
def BIT2 : Nat := 4

/-- Line 42: `#define WIFI_CONNECTED_BIT BIT0`. -/
def WIFI_CONNECTED_BIT : Nat := BIT0

/-- Line 43: `#define WIFI_FAIL_BIT BIT1`. -/
def WIFI_FAIL_BIT : Nat := BIT1

/-- Line 44: `#define LED_BIT BIT2`. -/
def LED_BIT : Nat := BIT2

/-- Largest value of a C `int` on the target (32 bits). -/
def INT_MAX : Int := 2147483647

/-- Smallest value of a C `int` on the target (32 bits). -/
def INT_MIN : Int := -2147483648

/-- Two's complement wrap of an integer to 32 bits. -/
def wrapInt32 (x : Int) : Int := (x + 2147483648) % 4294967296 - 2147483648

/-- All ones in the 32 bits of an `EventBits_t`. -/
def EVENT_BITS_ALL : Nat := 4294967295

/-! ## Configuration (`esp_wifi_config.h`) -/

/-- The macros of `esp_wifi_config.h` and of the FreeRTOS port that the code
reads, taken as parameters. `LED_GPIO_NUM` stands for the macro `LED_GPIO`. -/
structure Config where
  ESP_MAXIMUM_RETRY : Int
  RETRY_TIME : Nat
  portTICK_PERIOD_MS : Nat
  LED_GPIO_NUM : Nat
  deriving DecidableEq, Repr

/-! ## Calls and state -/

/-- The calls the code makes to its collaborators, with their arguments, and the
store to the shared global `connection_status`. -/
inductive Call where
  | esp_wifi_connect
  | xEventGroupSetBits (uxBitsToSet : Nat)
  | xEventGroupClearBits (uxBitsToClear : Nat)
  | xEventGroupWaitBits (uxBitsToWaitFor : Nat)
  | vTaskDelay (xTicksToDelay : Nat)
  | gpio_set_level (gpio_num : Nat) (level : Nat)
  | store_connection_status (value : Nat)
  deriving DecidableEq, Repr

/-- The points of `ESP_WIFI_Task` between which no blocking call lies: the top
of the `for(;;)` body (line 175), inside `xEventGroupWaitBits` (lines 177-183),
inside `vTaskDelay` (line 222). -/
inductive TaskPoint where
  | loop_top
  | in_wait
  | in_delay
  deriving DecidableEq, Repr

/-- The globals of `wifi_handler.c` (lines 34, 47, 48), the point at which
`ESP_WIFI_Task` stands, and the calls made so far, oldest first. -/
structure World where
  s_wifi_event_group : Nat
  s_retry_num : Int
  connection_status : Nat
  wifi_task_at : TaskPoint
  trace : List Call
  deriving DecidableEq, Repr

/-- State at start-up: a fresh event group, `s_retry_num = 0`,
`connection_status = 0`, `ESP_WIFI_Task` about to enter its loop, nothing called
yet. -/
def World.initial : World :=
  { s_wifi_event_group := 0, s_retry_num := 0, connection_status := 0,
    wifi_task_at := TaskPoint.loop_top, trace := [] }

/-- Call `esp_wifi_connect()`: fire and forget, its result is not read. -/
def esp_wifi_connect (w : World) : World :=
  { w with trace := w.trace ++ [Call.esp_wifi_connect] }

/-- Call `xEventGroupSetBits(s_wifi_event_group, bits)`: `uxEventBits |= bits`. -/
def xEventGroupSetBits (bits : Nat) (w : World) : World :=
  { w with s_wifi_event_group := w.s_wifi_event_group ||| bits,
           trace := w.trace ++ [Call.xEventGroupSetBits bits] }

/-- Call `xEventGroupClearBits(s_wifi_event_group, bits)`:
`uxEventBits &= ~bits`, on 32 bits. -/
def xEventGroupClearBits (bits : Nat) (w : World) : World :=
  { w with s_wifi_event_group := w.s_wifi_event_group &&& (EVENT_BITS_ALL ^^^ bits),
           trace := w.trace ++ [Call.xEventGroupClearBits bits] }

/-- The call
`xEventGroupWaitBits(s_wifi_event_group, bits, pdFALSE, pdFALSE, portMAX_DELAY)`
is made: the caller is now inside it. -/
def xEventGroupWaitBits_call (bits : Nat) (w : World) : World :=
  { w with trace := w.trace ++ [Call.xEventGroupWaitBits bits] }

/-- What a pending
`xEventGroupWaitBits(s_wifi_event_group, bits, pdFALSE, pdFALSE, portMAX_DELAY)`
returns: once one of `bits` is set (`xWaitForAllBits` is `pdFALSE`), the event
group value, of which nothing is cleared (`xClearOnExit` is `pdFALSE`); while
none of `bits` is set the call does not return: `none`. -/
def xEventGroupWaitBits_return (bits : Nat) (w : World) : Option Nat :=
  if w.s_wifi_event_group &&& bits ≠ 0 then some w.s_wifi_event_group else none

/-- Call `vTaskDelay(ticks)`. -/
def vTaskDelay (ticks : Nat) (w : World) : World :=
  { w with trace := w.trace ++ [Call.vTaskDelay ticks] }

/-- Call `gpio_set_level(gpio_num, level)`. -/
def gpio_set_level (gpio_num level : Nat) (w : World) : World :=
  { w with trace := w.trace ++ [Call.gpio_set_level gpio_num level] }

/-- Statement `connection_status = value;`. -/
def store_connection_status (value : Nat) (w : World) : World :=
  { w with connection_status := value,
           trace := w.trace ++ [Call.store_connection_status value] }

/-! ## The code -/

/-- Lines 59-81: `event_handler(arg, event_base, event_id, event_data)`. -/
def event_handler (cfg : Config) (event_base : esp_event_base_t) (event_id : Int)
    (w : World) : World :=
  if event_base = esp_event_base_t.WIFI_EVENT ∧ event_id = WIFI_EVENT_STA_START then
    esp_wifi_connect w
  else if event_base = esp_event_base_t.WIFI_EVENT
      ∧ event_id = WIFI_EVENT_STA_DISCONNECTED then
    if w.s_retry_num < cfg.ESP_MAXIMUM_RETRY then
      let w1 := esp_wifi_connect w
      { w1 with s_retry_num := wrapInt32 (w1.s_retry_num + 1) }
    else
      let w1 := { w with s_retry_num := 0 }
      xEventGroupSetBits WIFI_FAIL_BIT w1
  else if event_base = esp_event_base_t.IP_EVENT ∧ event_id = IP_EVENT_STA_GOT_IP then
    let w1 := { w with s_retry_num := 0 }
    xEventGroupSetBits WIFI_CONNECTED_BIT w1
  else
    w

/-- Lines 185-229: from the value `bits` that `xEventGroupWaitBits` returned to
the next point at which `ESP_WIFI_Task` stands: the loop top again after the
connected branch and after the last `else`, inside `vTaskDelay` in the fail
branch. -/
def ESP_WIFI_Task_branch (cfg : Config) (bits : Nat) (w : World) : World :=
  if bits &&& WIFI_CONNECTED_BIT ≠ 0 then
    let w2 := xEventGroupClearBits (WIFI_CONNECTED_BIT ||| WIFI_FAIL_BIT ||| LED_BIT) w
    let w3 := store_connection_status 1 w2
    { w3 with wifi_task_at := TaskPoint.loop_top }
  else if bits &&& WIFI_FAIL_BIT ≠ 0 then
    let w2 := xEventGroupSetBits LED_BIT w
    let w3 := store_connection_status 0 w2
    let w4 := vTaskDelay (cfg.RETRY_TIME / cfg.portTICK_PERIOD_MS) w3
    { w4 with wifi_task_at := TaskPoint.in_delay }
  else
    { w with wifi_task_at := TaskPoint.loop_top }

/-- Lines 223-225: `vTaskDelay` has returned; `esp_wifi_connect()` and back to
the loop top. -/
def ESP_WIFI_Task_after_delay (w : World) : World :=
  let w1 := esp_wifi_connect w
  { w1 with wifi_task_at := TaskPoint.loop_top }

/-- `ESP_WIFI_Task` goes from the point at which it stands to the next one. At
the loop top it calls `xEventGroupWaitBits`; inside `xEventGroupWaitBits` it
goes on once the call returns, and stays where it is while the call is blocked;
inside `vTaskDelay` it goes on when the delay is over. -/
def ESP_WIFI_Task_step (cfg : Config) (w : World) : World :=
  match w.wifi_task_at with
  | TaskPoint.loop_top =>
    let w1 := xEventGroupWaitBits_call (WIFI_CONNECTED_BIT ||| WIFI_FAIL_BIT) w
    { w1 with wifi_task_at := TaskPoint.in_wait }
  | TaskPoint.in_wait =>
    match xEventGroupWaitBits_return (WIFI_CONNECTED_BIT ||| WIFI_FAIL_BIT) w with
    | none => w
    | some bits => ESP_WIFI_Task_branch cfg bits w
  | TaskPoint.in_delay => ESP_WIFI_Task_after_delay w

/-- Lines 175-229: one whole pass through the body of the `for(;;)` of
`ESP_WIFI_Task`, from the loop top back to the loop top, when no event is
handled during the pass; `none` when `xEventGroupWaitBits` does not return. -/
def ESP_WIFI_Task_loop (cfg : Config) (w : World) : Option World :=
  let w1 := xEventGroupWaitBits_call (WIFI_CONNECTED_BIT ||| WIFI_FAIL_BIT) w
  match xEventGroupWaitBits_return (WIFI_CONNECTED_BIT ||| WIFI_FAIL_BIT) w1 with
  | none => none
  | some bits =>
    let w2 := ESP_WIFI_Task_branch cfg bits w1
    match w2.wifi_task_at with
    | TaskPoint.in_delay => some (ESP_WIFI_Task_after_delay w2)
    | _ => some w2

/-- The C expression `!x` on a `uint8_t`. -/
def lnot (x : Nat) : Nat := if x = 0 then 1 else 0

/-- Lines 259-280: one pass through the body of the `for(;;)` of `LED_Blink`, up
to and with the blocking call that ends it (`vTaskDelay`, or
`xEventGroupWaitBits`, whose result `led_bits` is never read); the local
`led_state` goes in and comes out. -/
def LED_Blink_loop (cfg : Config) (led_state : Nat) (w : World) : Nat × World :=
  if w.connection_status = 0 then
    let w1 := gpio_set_level cfg.LED_GPIO_NUM led_state w
    let led_state1 := lnot led_state
    let w2 := vTaskDelay (500 / cfg.portTICK_PERIOD_MS) w1
    (led_state1, w2)
  else
    let w1 := gpio_set_level cfg.LED_GPIO_NUM 1 w
    let w2 := xEventGroupWaitBits_call LED_BIT w1
    (led_state, w2)

/-! ## Runs -/

/-- One scheduling step of the supervisor: the event loop delivers an event to
`event_handler`, or `ESP_WIFI_Task` goes from the point at which it stands to
the next one. -/
inductive Step where
  | event (event_base : esp_event_base_t) (event_id : Int)
  | wifi_task
  deriving DecidableEq, Repr

def step (cfg : Config) (w : World) : Step → World
  | Step.event event_base event_id => event_handler cfg event_base event_id w
  | Step.wifi_task => ESP_WIFI_Task_step cfg w

/-- Run the steps in order. -/
def run (cfg : Config) (steps : List Step) (w : World) : World :=
  steps.foldl (step cfg) w

def StationStarted : Step :=
  Step.event esp_event_base_t.WIFI_EVENT WIFI_EVENT_STA_START

def Disconnected : Step :=
  Step.event esp_event_base_t.WIFI_EVENT WIFI_EVENT_STA_DISCONNECTED

def AddressAcquired : Step :=
  Step.event esp_event_base_t.IP_EVENT IP_EVENT_STA_GOT_IP

/-- The steps that deliver the given events, in order, to `event_handler`. -/
def events (es : List (esp_event_base_t × Int)) : List Step :=
  es.map (fun e => Step.event e.1 e.2)

/-- The level of a call to `gpio_set_level`, nothing for another call. -/
def Call.level : Call → Option Nat
  | Call.gpio_set_level _ level => some level
  | _ => none

/-- The levels passed to `gpio_set_level`, oldest first. -/
def levels (trace : List Call) : List Nat :=
  trace.filterMap Call.level

/-- How many times `esp_wifi_connect` was called. -/
def connects (trace : List Call) : Nat :=
  trace.count Call.esp_wifi_connect

/-- A configuration with `ESP_MAXIMUM_RETRY = 3`, `RETRY_TIME = 10000` ms and a
tick of 10 ms. -/
def cfg3 : Config :=
  { ESP_MAXIMUM_RETRY := 3, RETRY_TIME := 10000, portTICK_PERIOD_MS := 10, LED_GPIO_NUM := 2 }

/-! ## Lemmas on the event bits and on the 32-bit wrap -/

theorem and_or_self_ne_zero (b m : Nat) (hm : m ≠ 0) : (b ||| m) &&& m ≠ 0 := by
  have h : (b ||| m) &&& m = m := by
    apply Nat.eq_of_testBit_eq
    intro i
    simp only [Nat.testBit_and, Nat.testBit_or]
    cases b.testBit i <;> cases m.testBit i <;> rfl
  rw [h]
  exact hm

theorem and_clear_of_subset (b m k : Nat) (hk : (EVENT_BITS_ALL ^^^ m) &&& k = 0) :
    (b &&& (EVENT_BITS_ALL ^^^ m)) &&& k = 0 := by
  rw [Nat.and_assoc, hk, Nat.and_zero]

theorem wrapInt32_of_range (x : Int) (hlo : INT_MIN ≤ x) (hhi : x ≤ INT_MAX) :
    wrapInt32 x = x := by
  unfold wrapInt32
  unfold INT_MIN at hlo
  unfold INT_MAX at hhi
  omega

theorem connects_append (s t : List Call) : connects (s ++ t) = connects s + connects t := by
  simp [connects, List.count_append]

/-! ## The branches of `event_handler` -/

theorem event_handler_sta_start (cfg : Config) (w : World) :
    event_handler cfg esp_event_base_t.WIFI_EVENT WIFI_EVENT_STA_START w
      = esp_wifi_connect w := by
  simp [event_handler]

theorem event_handler_sta_disconnected (cfg : Config) (w : World) :
    event_handler cfg esp_event_base_t.WIFI_EVENT WIFI_EVENT_STA_DISCONNECTED w
      = if w.s_retry_num < cfg.ESP_MAXIMUM_RETRY then
          { esp_wifi_connect w with s_retry_num := wrapInt32 (w.s_retry_num + 1) }
        else
          xEventGroupSetBits WIFI_FAIL_BIT { w with s_retry_num := 0 } := by
  simp [event_handler, WIFI_EVENT_STA_START, WIFI_EVENT_STA_DISCONNECTED, esp_wifi_connect]

theorem event_handler_got_ip (cfg : Config) (w : World) :
    event_handler cfg esp_event_base_t.IP_EVENT IP_EVENT_STA_GOT_IP w
      = xEventGroupSetBits WIFI_CONNECTED_BIT { w with s_retry_num := 0 } := by
  simp [event_handler]

/-- The retry branch, when the counter is an `int` below an `int` limit. -/
theorem event_handler_retry (cfg : Config) (w : World)
    (hmin : INT_MIN ≤ w.s_retry_num) (hmax : cfg.ESP_MAXIMUM_RETRY ≤ INT_MAX)
    (hlt : w.s_retry_num < cfg.ESP_MAXIMUM_RETRY) :
    event_handler cfg esp_event_base_t.WIFI_EVENT WIFI_EVENT_STA_DISCONNECTED w
      = { w with s_retry_num := w.s_retry_num + 1,
                 trace := w.trace ++ [Call.esp_wifi_connect] } := by
  rw [event_handler_sta_disconnected, if_pos hlt]
  have hw : wrapInt32 (w.s_retry_num + 1) = w.s_retry_num + 1 :=
    wrapInt32_of_range _ (by omega) (by omega)
  simp [esp_wifi_connect, hw]

/-- The give-up branch. -/
theorem event_handler_exhausted (cfg : Config) (w : World)
    (hge : cfg.ESP_MAXIMUM_RETRY ≤ w.s_retry_num) :
    event_handler cfg esp_event_base_t.WIFI_EVENT WIFI_EVENT_STA_DISCONNECTED w
      = { w with s_retry_num := 0,
                 s_wifi_event_group := w.s_wifi_event_group ||| WIFI_FAIL_BIT,
                 trace := w.trace ++ [Call.xEventGroupSetBits WIFI_FAIL_BIT] } := by
  rw [event_handler_sta_disconnected, if_neg (by omega)]
  rfl

/-! ## Claims on `event_handler` -/

/-- C1: for every retry limit and every state whose `s_retry_num` is below it,
`event_handler` on `WIFI_EVENT_STA_DISCONNECTED` calls `esp_wifi_connect` exactly
once and nothing else, adds exactly 1 to `s_retry_num`, and leaves the event
bits (so `WIFI_FAIL_BIT` too) and `connection_status` as they were. -/
theorem C1_disconnected_below_limit_retries (cfg : Config) (w : World)
    (hmin : INT_MIN ≤ w.s_retry_num) (hmax : cfg.ESP_MAXIMUM_RETRY ≤ INT_MAX)
    (hlt : w.s_retry_num < cfg.ESP_MAXIMUM_RETRY) :
    (event_handler cfg esp_event_base_t.WIFI_EVENT WIFI_EVENT_STA_DISCONNECTED w).trace
        = w.trace ++ [Call.esp_wifi_connect]
    ∧ connects (event_handler cfg esp_event_base_t.WIFI_EVENT
          WIFI_EVENT_STA_DISCONNECTED w).trace = connects w.trace + 1
    ∧ (event_handler cfg esp_event_base_t.WIFI_EVENT WIFI_EVENT_STA_DISCONNECTED w).s_retry_num
        = w.s_retry_num + 1
    ∧ (event_handler cfg esp_event_base_t.WIFI_EVENT
          WIFI_EVENT_STA_DISCONNECTED w).s_wifi_event_group = w.s_wifi_event_group
    ∧ (event_handler cfg esp_event_base_t.WIFI_EVENT
          WIFI_EVENT_STA_DISCONNECTED w).connection_status = w.connection_status := by
  rw [event_handler_retry cfg w hmin hmax hlt]
  refine ⟨rfl, ?_, rfl, rfl, rfl⟩
  show connects (w.trace ++ [Call.esp_wifi_connect]) = connects w.trace + 1
  rw [connects_append]
  rfl

/-- C1 at `ESP_MAXIMUM_RETRY = 3`, `s_retry_num = 2` and `WIFI_FAIL_BIT` clear. -/
theorem C1_disconnected_below_limit_retries_witness :
    (event_handler cfg3 esp_event_base_t.WIFI_EVENT WIFI_EVENT_STA_DISCONNECTED
        { World.initial with s_retry_num := 2 }).trace
        = [Call.esp_wifi_connect]
    ∧ connects (event_handler cfg3 esp_event_base_t.WIFI_EVENT WIFI_EVENT_STA_DISCONNECTED
        { World.initial with s_retry_num := 2 }).trace = connects [] + 1
    ∧ (event_handler cfg3 esp_event_base_t.WIFI_EVENT WIFI_EVENT_STA_DISCONNECTED
        { World.initial with s_retry_num := 2 }).s_retry_num = 2 + 1
    ∧ (event_handler cfg3 esp_event_base_t.WIFI_EVENT WIFI_EVENT_STA_DISCONNECTED
        { World.initial with s_retry_num := 2 }).s_wifi_event_group = 0
    ∧ (event_handler cfg3 esp_event_base_t.WIFI_EVENT WIFI_EVENT_STA_DISCONNECTED
        { World.initial with s_retry_num := 2 }).connection_status = 0 :=
  C1_disconnected_below_limit_retries cfg3 { World.initial with s_retry_num := 2 }
    (by decide) (by decide) (by decide)

/-- C3: whatever `s_retry_num` and the event bits were, `event_handler` on
`IP_EVENT_STA_GOT_IP` leaves `s_retry_num = 0` and `WIFI_CONNECTED_BIT` set; its
only call is `xEventGroupSetBits(WIFI_CONNECTED_BIT)`, so the number of calls to
`esp_wifi_connect` is unchanged. -/
theorem C3_got_ip_resets_and_publishes_connected (cfg : Config) (w : World) :
    (event_handler cfg esp_event_base_t.IP_EVENT IP_EVENT_STA_GOT_IP w).s_retry_num = 0
    ∧ (event_handler cfg esp_event_base_t.IP_EVENT IP_EVENT_STA_GOT_IP w).s_wifi_event_group
        &&& WIFI_CONNECTED_BIT ≠ 0
    ∧ (event_handler cfg esp_event_base_t.IP_EVENT IP_EVENT_STA_GOT_IP w).trace
        = w.trace ++ [Call.xEventGroupSetBits WIFI_CONNECTED_BIT]
    ∧ connects (event_handler cfg esp_event_base_t.IP_EVENT IP_EVENT_STA_GOT_IP w).trace
        = connects w.trace := by
  rw [event_handler_got_ip]
  refine ⟨rfl, ?_, rfl, ?_⟩
  · exact and_or_self_ne_zero _ _ (by decide)
  · show connects (w.trace ++ [Call.xEventGroupSetBits WIFI_CONNECTED_BIT]) = connects w.trace
    rw [connects_append]
    rfl

/-- C9: an event that is not `WIFI_EVENT`/`WIFI_EVENT_STA_START`, not
`WIFI_EVENT`/`WIFI_EVENT_STA_DISCONNECTED` and not `IP_EVENT`/`IP_EVENT_STA_GOT_IP`
leaves the whole state as it was: `s_retry_num`, the event bits,
`connection_status`, and the trace of calls (nothing is called). -/
theorem C9_other_event_changes_nothing (cfg : Config) (event_base : esp_event_base_t)
    (event_id : Int) (w : World)
    (hstart : ¬ (event_base = esp_event_base_t.WIFI_EVENT ∧ event_id = WIFI_EVENT_STA_START))
    (hdisc : ¬ (event_base = esp_event_base_t.WIFI_EVENT
                  ∧ event_id = WIFI_EVENT_STA_DISCONNECTED))
    (hip : ¬ (event_base = esp_event_base_t.IP_EVENT ∧ event_id = IP_EVENT_STA_GOT_IP)) :
    event_handler cfg event_base event_id w = w := by
  unfold event_handler
  rw [if_neg hstart, if_neg hdisc, if_neg hip]

/-- C9 at three events: the disconnect id under `IP_EVENT`, the got-ip id under
`WIFI_EVENT`, and the start id under another base. -/
theorem C9_other_event_changes_nothing_witness :
    event_handler cfg3 esp_event_base_t.IP_EVENT WIFI_EVENT_STA_DISCONNECTED
        { World.initial with s_retry_num := 3, connection_status := 1 }
      = { World.initial with s_retry_num := 3, connection_status := 1 }
    ∧ event_handler cfg3 esp_event_base_t.WIFI_EVENT IP_EVENT_STA_GOT_IP World.initial
      = World.initial
    ∧ event_handler cfg3 (esp_event_base_t.OTHER 0) WIFI_EVENT_STA_START World.initial
      = World.initial :=
  ⟨C9_other_event_changes_nothing cfg3 esp_event_base_t.IP_EVENT WIFI_EVENT_STA_DISCONNECTED
      { World.initial with s_retry_num := 3, connection_status := 1 }
      (by decide) (by decide) (by decide),
   C9_other_event_changes_nothing cfg3 esp_event_base_t.WIFI_EVENT IP_EVENT_STA_GOT_IP
      World.initial (by decide) (by decide) (by decide),
   C9_other_event_changes_nothing cfg3 (esp_event_base_t.OTHER 0) WIFI_EVENT_STA_START
      World.initial (by decide) (by decide) (by decide)⟩

/-! ## The steps of `ESP_WIFI_Task` -/

theorem and_eq_zero_of_subset (b m k : Nat) (h : b &&& k = 0) (hmk : k &&& m = m) :
    b &&& m = 0 := by
  rw [← hmk, ← Nat.and_assoc, h, Nat.zero_and]

theorem and_or_eq_zero (b m k : Nat) (hm : b &&& m = 0) (hk : b &&& k = 0) :
    b &&& (m ||| k) = 0 := by
  rw [Nat.and_or_distrib_left, hm, hk]
  rfl

theorem xEventGroupWaitBits_return_of_set (bits : Nat) (w : World)
    (h : w.s_wifi_event_group &&& bits ≠ 0) :
    xEventGroupWaitBits_return bits w = some w.s_wifi_event_group := by
  unfold xEventGroupWaitBits_return
  rw [if_pos h]

theorem xEventGroupWaitBits_return_of_clear (bits : Nat) (w : World)
    (h : w.s_wifi_event_group &&& bits = 0) :
    xEventGroupWaitBits_return bits w = none := by
  unfold xEventGroupWaitBits_return
  rw [if_neg (not_not.mpr h)]

theorem ESP_WIFI_Task_branch_connected (cfg : Config) (bits : Nat) (w : World)
    (hc : bits &&& WIFI_CONNECTED_BIT ≠ 0) :
    ESP_WIFI_Task_branch cfg bits w
      = { w with
            s_wifi_event_group := w.s_wifi_event_group
              &&& (EVENT_BITS_ALL ^^^ (WIFI_CONNECTED_BIT ||| WIFI_FAIL_BIT ||| LED_BIT)),
            connection_status := 1,
            wifi_task_at := TaskPoint.loop_top,
            trace := w.trace ++
              [Call.xEventGroupClearBits (WIFI_CONNECTED_BIT ||| WIFI_FAIL_BIT ||| LED_BIT),
               Call.store_connection_status 1] } := by
  unfold ESP_WIFI_Task_branch
  rw [if_pos hc]
  simp [xEventGroupClearBits, store_connection_status]

theorem ESP_WIFI_Task_branch_failed (cfg : Config) (bits : Nat) (w : World)
    (hc : bits &&& WIFI_CONNECTED_BIT = 0) (hf : bits &&& WIFI_FAIL_BIT ≠ 0) :
    ESP_WIFI_Task_branch cfg bits w
      = { w with
            s_wifi_event_group := w.s_wifi_event_group ||| LED_BIT,
            connection_status := 0,
            wifi_task_at := TaskPoint.in_delay,
            trace := w.trace ++
              [Call.xEventGroupSetBits LED_BIT,
               Call.store_connection_status 0,
               Call.vTaskDelay (cfg.RETRY_TIME / cfg.portTICK_PERIOD_MS)] } := by
  unfold ESP_WIFI_Task_branch
  rw [if_neg (not_not.mpr hc), if_pos hf]
  simp [xEventGroupSetBits, store_connection_status, vTaskDelay]

theorem ESP_WIFI_Task_loop_connected (cfg : Config) (w : World)
    (hc : w.s_wifi_event_group &&& WIFI_CONNECTED_BIT ≠ 0) :
    ESP_WIFI_Task_loop cfg w
      = some { w with
            s_wifi_event_group := w.s_wifi_event_group
              &&& (EVENT_BITS_ALL ^^^ (WIFI_CONNECTED_BIT ||| WIFI_FAIL_BIT ||| LED_BIT)),
            connection_status := 1,
            wifi_task_at := TaskPoint.loop_top,
            trace := w.trace ++
              [Call.xEventGroupWaitBits (WIFI_CONNECTED_BIT ||| WIFI_FAIL_BIT),
               Call.xEventGroupClearBits (WIFI_CONNECTED_BIT ||| WIFI_FAIL_BIT ||| LED_BIT),
               Call.store_connection_status 1] } := by
  have hany : w.s_wifi_event_group &&& (WIFI_CONNECTED_BIT ||| WIFI_FAIL_BIT) ≠ 0 :=
    fun h => hc (and_eq_zero_of_subset _ _ _ h (by decide))
  unfold ESP_WIFI_Task_loop
  simp only []
  rw [xEventGroupWaitBits_return_of_set _
    (xEventGroupWaitBits_call (WIFI_CONNECTED_BIT ||| WIFI_FAIL_BIT) w) hany]
  simp only []
  rw [ESP_WIFI_Task_branch_connected cfg
    (xEventGroupWaitBits_call (WIFI_CONNECTED_BIT ||| WIFI_FAIL_BIT) w).s_wifi_event_group
    (xEventGroupWaitBits_call (WIFI_CONNECTED_BIT ||| WIFI_FAIL_BIT) w) hc]
  simp [xEventGroupWaitBits_call]

theorem ESP_WIFI_Task_loop_failed (cfg : Config) (w : World)
    (hc : w.s_wifi_event_group &&& WIFI_CONNECTED_BIT = 0)
    (hf : w.s_wifi_event_group &&& WIFI_FAIL_BIT ≠ 0) :
    ESP_WIFI_Task_loop cfg w
      = some { w with
            s_wifi_event_group := w.s_wifi_event_group ||| LED_BIT,
            connection_status := 0,
            wifi_task_at := TaskPoint.loop_top,
            trace := w.trace ++
              [Call.xEventGroupWaitBits (WIFI_CONNECTED_BIT ||| WIFI_FAIL_BIT),
               Call.xEventGroupSetBits LED_BIT,
               Call.store_connection_status 0,
               Call.vTaskDelay (cfg.RETRY_TIME / cfg.portTICK_PERIOD_MS),
               Call.esp_wifi_connect] } := by
  have hany : w.s_wifi_event_group &&& (WIFI_CONNECTED_BIT ||| WIFI_FAIL_BIT) ≠ 0 :=
    fun h => hf (and_eq_zero_of_subset _ _ _ h (by decide))
  unfold ESP_WIFI_Task_loop
  simp only []
  rw [xEventGroupWaitBits_return_of_set _
    (xEventGroupWaitBits_call (WIFI_CONNECTED_BIT ||| WIFI_FAIL_BIT) w) hany]
  simp only []
  rw [ESP_WIFI_Task_branch_failed cfg
    (xEventGroupWaitBits_call (WIFI_CONNECTED_BIT ||| WIFI_FAIL_BIT) w).s_wifi_event_group
    (xEventGroupWaitBits_call (WIFI_CONNECTED_BIT ||| WIFI_FAIL_BIT) w) hc hf]
  simp [xEventGroupWaitBits_call, ESP_WIFI_Task_after_delay, esp_wifi_connect]

/-- While neither awaited bit is set the pass does not get past the wait. -/
theorem ESP_WIFI_Task_loop_blocked (cfg : Config) (w : World)
    (hc : w.s_wifi_event_group &&& WIFI_CONNECTED_BIT = 0)
    (hf : w.s_wifi_event_group &&& WIFI_FAIL_BIT = 0) :
    ESP_WIFI_Task_loop cfg w = none := by
  unfold ESP_WIFI_Task_loop
  simp only []
  rw [xEventGroupWaitBits_return_of_clear _
    (xEventGroupWaitBits_call (WIFI_CONNECTED_BIT ||| WIFI_FAIL_BIT) w)
    (and_or_eq_zero _ _ _ hc hf)]

theorem ESP_WIFI_Task_step_at_loop_top (cfg : Config) (w : World)
    (hat : w.wifi_task_at = TaskPoint.loop_top) :
    ESP_WIFI_Task_step cfg w
      = { w with wifi_task_at := TaskPoint.in_wait,
                 trace := w.trace
                   ++ [Call.xEventGroupWaitBits (WIFI_CONNECTED_BIT ||| WIFI_FAIL_BIT)] } := by
  unfold ESP_WIFI_Task_step
  rw [hat]
  rfl

theorem ESP_WIFI_Task_step_in_wait_returned (cfg : Config) (w : World)
    (hat : w.wifi_task_at = TaskPoint.in_wait)
    (h : w.s_wifi_event_group &&& (WIFI_CONNECTED_BIT ||| WIFI_FAIL_BIT) ≠ 0) :
    ESP_WIFI_Task_step cfg w = ESP_WIFI_Task_branch cfg w.s_wifi_event_group w := by
  unfold ESP_WIFI_Task_step
  rw [hat]
  simp only []
  rw [xEventGroupWaitBits_return_of_set _ _ h]

theorem ESP_WIFI_Task_step_in_delay (cfg : Config) (w : World)
    (hat : w.wifi_task_at = TaskPoint.in_delay) :
    ESP_WIFI_Task_step cfg w
      = { w with wifi_task_at := TaskPoint.loop_top,
                 trace := w.trace ++ [Call.esp_wifi_connect] } := by
  unfold ESP_WIFI_Task_step
  rw [hat]
  rfl

theorem ESP_WIFI_Task_branch_s_retry_num (cfg : Config) (bits : Nat) (w : World) :
    (ESP_WIFI_Task_branch cfg bits w).s_retry_num = w.s_retry_num := by
  unfold ESP_WIFI_Task_branch
  split_ifs <;> rfl

theorem ESP_WIFI_Task_step_s_retry_num (cfg : Config) (w : World) :
    (ESP_WIFI_Task_step cfg w).s_retry_num = w.s_retry_num := by
  unfold ESP_WIFI_Task_step
  split
  · rfl
  · split
    · rfl
    · exact ESP_WIFI_Task_branch_s_retry_num cfg _ w
  · rfl

theorem run_append (cfg : Config) (s t : List Step) (w : World) :
    run cfg (s ++ t) w = run cfg t (run cfg s w) := by
  simp [run]

theorem event_handler_connection_status (cfg : Config) (event_base : esp_event_base_t)
    (event_id : Int) (w : World) :
    (event_handler cfg event_base event_id w).connection_status = w.connection_status := by
  unfold event_handler
  split_ifs <;> rfl

theorem event_handler_wifi_task_at (cfg : Config) (event_base : esp_event_base_t)
    (event_id : Int) (w : World) :
    (event_handler cfg event_base event_id w).wifi_task_at = w.wifi_task_at := by
  unfold event_handler
  split_ifs <;> rfl

/-- Events alone move neither `connection_status` nor `ESP_WIFI_Task`. -/
theorem run_events_frame (cfg : Config) :
    ∀ (es : List (esp_event_base_t × Int)) (w : World),
      (run cfg (events es) w).connection_status = w.connection_status
      ∧ (run cfg (events es) w).wifi_task_at = w.wifi_task_at := by
  intro es
  induction es with
  | nil =>
    intro w
    exact ⟨rfl, rfl⟩
  | cons e es ih =>
    intro w
    have h := ih (event_handler cfg e.1 e.2 w)
    have hrun : run cfg (events (e :: es)) w
        = run cfg (events es) (event_handler cfg e.1 e.2 w) := rfl
    rw [hrun, h.1, h.2, event_handler_connection_status, event_handler_wifi_task_at]
    exact ⟨rfl, rfl⟩

/-- From the loop top with `WIFI_CONNECTED_BIT` set, two steps of the task are the
connected branch. -/
theorem run_wifi_task_connected (cfg : Config) (w : World)
    (hat : w.wifi_task_at = TaskPoint.loop_top)
    (hc : w.s_wifi_event_group &&& WIFI_CONNECTED_BIT ≠ 0) :
    some (run cfg [Step.wifi_task, Step.wifi_task] w) = ESP_WIFI_Task_loop cfg w := by
  have hany : w.s_wifi_event_group &&& (WIFI_CONNECTED_BIT ||| WIFI_FAIL_BIT) ≠ 0 :=
    fun h => hc (and_eq_zero_of_subset _ _ _ h (by decide))
  have h1 : run cfg [Step.wifi_task, Step.wifi_task] w
      = ESP_WIFI_Task_step cfg (ESP_WIFI_Task_step cfg w) := rfl
  rw [h1, ESP_WIFI_Task_step_at_loop_top cfg w hat,
    ESP_WIFI_Task_step_in_wait_returned cfg
      { w with wifi_task_at := TaskPoint.in_wait,
               trace := w.trace
                 ++ [Call.xEventGroupWaitBits (WIFI_CONNECTED_BIT ||| WIFI_FAIL_BIT)] }
      rfl hany,
    ESP_WIFI_Task_branch_connected cfg _ _ hc, ESP_WIFI_Task_loop_connected cfg w hc]
  simp

/-- From the loop top with `WIFI_FAIL_BIT` set and `WIFI_CONNECTED_BIT` clear, two
steps of the task lead into `vTaskDelay`. -/
theorem run_wifi_task_failed (cfg : Config) (w : World)
    (hat : w.wifi_task_at = TaskPoint.loop_top)
    (hc : w.s_wifi_event_group &&& WIFI_CONNECTED_BIT = 0)
    (hf : w.s_wifi_event_group &&& WIFI_FAIL_BIT ≠ 0) :
    run cfg [Step.wifi_task, Step.wifi_task] w
      = { w with
            s_wifi_event_group := w.s_wifi_event_group ||| LED_BIT,
            connection_status := 0,
            wifi_task_at := TaskPoint.in_delay,
            trace := w.trace ++
              [Call.xEventGroupWaitBits (WIFI_CONNECTED_BIT ||| WIFI_FAIL_BIT),
               Call.xEventGroupSetBits LED_BIT,
               Call.store_connection_status 0,
               Call.vTaskDelay (cfg.RETRY_TIME / cfg.portTICK_PERIOD_MS)] } := by
  have hany : w.s_wifi_event_group &&& (WIFI_CONNECTED_BIT ||| WIFI_FAIL_BIT) ≠ 0 :=
    fun h => hf (and_eq_zero_of_subset _ _ _ h (by decide))
  have h1 : run cfg [Step.wifi_task, Step.wifi_task] w
      = ESP_WIFI_Task_step cfg (ESP_WIFI_Task_step cfg w) := rfl
  rw [h1, ESP_WIFI_Task_step_at_loop_top cfg w hat,
    ESP_WIFI_Task_step_in_wait_returned cfg
      { w with wifi_task_at := TaskPoint.in_wait,
               trace := w.trace
                 ++ [Call.xEventGroupWaitBits (WIFI_CONNECTED_BIT ||| WIFI_FAIL_BIT)] }
      rfl hany,
    ESP_WIFI_Task_branch_failed cfg _ _ hc hf]
  simp

/-! ## Claims on the `ESP_WIFI_Task` loop body -/

/-- C8: from every state in which `WIFI_CONNECTED_BIT` is set, whatever the other
bits, one pass through the loop body of `ESP_WIFI_Task` returns (the wait does
not block), leaves `WIFI_CONNECTED_BIT`, `WIFI_FAIL_BIT` and `LED_BIT` clear, sets
`connection_status = 1`, keeps `s_retry_num`, and calls only
`xEventGroupWaitBits` and `xEventGroupClearBits` before the store to
`connection_status`: `esp_wifi_connect` is not called. The pass has no blocking
call after the wait: from the loop top it is two steps of the task. -/
theorem C8_connected_iteration_clears_signals (cfg : Config) (w : World)
    (hc : w.s_wifi_event_group &&& WIFI_CONNECTED_BIT ≠ 0) :
    ∃ w1 : World, ESP_WIFI_Task_loop cfg w = some w1
    ∧ w1.s_wifi_event_group &&& WIFI_CONNECTED_BIT = 0
    ∧ w1.s_wifi_event_group &&& WIFI_FAIL_BIT = 0
    ∧ w1.s_wifi_event_group &&& LED_BIT = 0
    ∧ w1.connection_status = 1
    ∧ w1.s_retry_num = w.s_retry_num
    ∧ w1.trace = w.trace ++
        [Call.xEventGroupWaitBits (WIFI_CONNECTED_BIT ||| WIFI_FAIL_BIT),
         Call.xEventGroupClearBits (WIFI_CONNECTED_BIT ||| WIFI_FAIL_BIT ||| LED_BIT),
         Call.store_connection_status 1]
    ∧ connects w1.trace = connects w.trace
    ∧ (w.wifi_task_at = TaskPoint.loop_top →
        run cfg [Step.wifi_task, Step.wifi_task] w = w1) := by
  refine ⟨_, ESP_WIFI_Task_loop_connected cfg w hc,
    and_clear_of_subset _ _ _ (by decide), and_clear_of_subset _ _ _ (by decide),
    and_clear_of_subset _ _ _ (by decide), rfl, rfl, rfl, ?_, ?_⟩
  · show connects (w.trace ++ _) = connects w.trace
    rw [connects_append]
    rfl
  · intro hat
    have h := run_wifi_task_connected cfg w hat hc
    rw [ESP_WIFI_Task_loop_connected cfg w hc] at h
    exact Option.some.inj h

/-- C8 at a state with all three bits pending, `s_retry_num = 2` and
`connection_status = 0`. -/
theorem C8_connected_iteration_clears_signals_witness :
    ∃ w1 : World,
      ESP_WIFI_Task_loop cfg3
        { World.initial with s_wifi_event_group := 7, s_retry_num := 2 } = some w1
      ∧ w1.s_wifi_event_group &&& WIFI_CONNECTED_BIT = 0
      ∧ w1.s_wifi_event_group &&& WIFI_FAIL_BIT = 0
      ∧ w1.s_wifi_event_group &&& LED_BIT = 0
      ∧ w1.connection_status = 1
      ∧ w1.s_retry_num = 2 := by
  obtain ⟨w1, h, hc, hf, hl, hs, hr, _⟩ := C8_connected_iteration_clears_signals cfg3
    { World.initial with s_wifi_event_group := 7, s_retry_num := 2 } (by decide)
  exact ⟨w1, h, hc, hf, hl, hs, hr⟩

/-- C7: on a disconnect with `s_retry_num >= ESP_MAXIMUM_RETRY` the only call of
`event_handler` is `xEventGroupSetBits(WIFI_FAIL_BIT)`, so `esp_wifi_connect` is
not called; and a pass through the loop body of `ESP_WIFI_Task` that reads
`WIFI_FAIL_BIT` set and `WIFI_CONNECTED_BIT` clear returns, leaves
`connection_status = 0` and performs, in this order, the store
`connection_status = 0`, then `vTaskDelay(RETRY_TIME / portTICK_PERIOD_MS)`, then
`esp_wifi_connect` once, as its last call. Step by step, from the loop top: two
steps of the task end inside `vTaskDelay` with `connection_status = 0` stored and
no `esp_wifi_connect` made, and whatever events are handled during the delay,
the step that ends the delay makes exactly the call `esp_wifi_connect` and
`connection_status` is still 0. -/
theorem C7_exhaustion_waits_before_retry (cfg : Config) (w v : World)
    (hge : cfg.ESP_MAXIMUM_RETRY ≤ w.s_retry_num)
    (hc : v.s_wifi_event_group &&& WIFI_CONNECTED_BIT = 0)
    (hf : v.s_wifi_event_group &&& WIFI_FAIL_BIT ≠ 0) :
    (event_handler cfg esp_event_base_t.WIFI_EVENT WIFI_EVENT_STA_DISCONNECTED w).trace
        = w.trace ++ [Call.xEventGroupSetBits WIFI_FAIL_BIT]
    ∧ connects (event_handler cfg esp_event_base_t.WIFI_EVENT
          WIFI_EVENT_STA_DISCONNECTED w).trace = connects w.trace
    ∧ (∃ v1 : World, ESP_WIFI_Task_loop cfg v = some v1
        ∧ v1.connection_status = 0
        ∧ v1.trace = v.trace ++
            [Call.xEventGroupWaitBits (WIFI_CONNECTED_BIT ||| WIFI_FAIL_BIT),
             Call.xEventGroupSetBits LED_BIT,
             Call.store_connection_status 0,
             Call.vTaskDelay (cfg.RETRY_TIME / cfg.portTICK_PERIOD_MS),
             Call.esp_wifi_connect]
        ∧ connects v1.trace = connects v.trace + 1)
    ∧ (v.wifi_task_at = TaskPoint.loop_top →
        (run cfg [Step.wifi_task, Step.wifi_task] v).wifi_task_at = TaskPoint.in_delay
        ∧ (run cfg [Step.wifi_task, Step.wifi_task] v).connection_status = 0
        ∧ (run cfg [Step.wifi_task, Step.wifi_task] v).trace = v.trace ++
            [Call.xEventGroupWaitBits (WIFI_CONNECTED_BIT ||| WIFI_FAIL_BIT),
             Call.xEventGroupSetBits LED_BIT,
             Call.store_connection_status 0,
             Call.vTaskDelay (cfg.RETRY_TIME / cfg.portTICK_PERIOD_MS)]
        ∧ ∀ es : List (esp_event_base_t × Int),
            (run cfg ([Step.wifi_task, Step.wifi_task] ++ events es ++ [Step.wifi_task])
                v).connection_status = 0
            ∧ (run cfg ([Step.wifi_task, Step.wifi_task] ++ events es ++ [Step.wifi_task])
                v).trace
              = (run cfg ([Step.wifi_task, Step.wifi_task] ++ events es) v).trace
                  ++ [Call.esp_wifi_connect]) := by
  refine ⟨?_, ?_, ⟨_, ESP_WIFI_Task_loop_failed cfg v hc hf, rfl, rfl, ?_⟩, ?_⟩
  · rw [event_handler_exhausted cfg w hge]
  · rw [event_handler_exhausted cfg w hge]
    show connects (w.trace ++ _) = connects w.trace
    rw [connects_append]
    rfl
  · show connects (v.trace ++ _) = connects v.trace + 1
    rw [connects_append]
    rfl
  · intro hat
    have h2 := run_wifi_task_failed cfg v hat hc hf
    refine ⟨by rw [h2], by rw [h2], by rw [h2], ?_⟩
    intro es
    have hfr := run_events_frame cfg es (run cfg [Step.wifi_task, Step.wifi_task] v)
    have hat2 : (run cfg ([Step.wifi_task, Step.wifi_task] ++ events es) v).wifi_task_at
        = TaskPoint.in_delay := by
      rw [run_append, hfr.2, h2]
    have hst2 : (run cfg ([Step.wifi_task, Step.wifi_task] ++ events es) v).connection_status
        = 0 := by
      rw [run_append, hfr.1, h2]
    have hlast : run cfg ([Step.wifi_task, Step.wifi_task] ++ events es ++ [Step.wifi_task]) v
        = ESP_WIFI_Task_step cfg (run cfg ([Step.wifi_task, Step.wifi_task] ++ events es) v) := by
      rw [run_append]
      rfl
    rw [hlast, ESP_WIFI_Task_step_in_delay cfg _ hat2]
    exact ⟨hst2, rfl⟩

/-- C7 at `ESP_MAXIMUM_RETRY = 3`: the disconnect arrives with `s_retry_num = 3`,
and the loop body runs on a state with `WIFI_FAIL_BIT` set. -/
theorem C7_exhaustion_waits_before_retry_witness :
    (event_handler cfg3 esp_event_base_t.WIFI_EVENT WIFI_EVENT_STA_DISCONNECTED
        { World.initial with s_retry_num := 3 }).trace
        = [] ++ [Call.xEventGroupSetBits WIFI_FAIL_BIT]
    ∧ ∃ v1 : World,
        ESP_WIFI_Task_loop cfg3
          { World.initial with s_wifi_event_group := 2, connection_status := 1 } = some v1
        ∧ v1.connection_status = 0
        ∧ v1.trace = [] ++
            [Call.xEventGroupWaitBits (WIFI_CONNECTED_BIT ||| WIFI_FAIL_BIT),
             Call.xEventGroupSetBits LED_BIT,
             Call.store_connection_status 0,
             Call.vTaskDelay (10000 / 10),
             Call.esp_wifi_connect] := by
  obtain ⟨h1, _, ⟨v1, hv, hs, ht, _⟩, _⟩ := C7_exhaustion_waits_before_retry cfg3
    { World.initial with s_retry_num := 3 }
    { World.initial with s_wifi_event_group := 2, connection_status := 1 }
    (by decide) (by decide) (by decide)
  exact ⟨h1, v1, hv, hs, ht⟩

/-- C4, as stated, fails: with `ESP_MAXIMUM_RETRY = 3`, after station-started,
address-acquired and the pass of `ESP_WIFI_Task` through its connected branch,
the state is Connected (`connection_status = 1`, `s_retry_num = 0`, no bit
pending); a disconnect event then leaves `connection_status` at 1, not at 0, and
moves `s_retry_num` to 1. -/
theorem C4_counterexample_status_kept_counter_moved :
    (run cfg3 [StationStarted, AddressAcquired, Step.wifi_task, Step.wifi_task]
        World.initial).connection_status = 1
    ∧ (run cfg3 [StationStarted, AddressAcquired, Step.wifi_task, Step.wifi_task]
        World.initial).s_retry_num = 0
    ∧ (run cfg3 [StationStarted, AddressAcquired, Step.wifi_task, Step.wifi_task]
        World.initial).s_wifi_event_group = 0
    ∧ (event_handler cfg3 esp_event_base_t.WIFI_EVENT WIFI_EVENT_STA_DISCONNECTED
        (run cfg3 [StationStarted, AddressAcquired, Step.wifi_task, Step.wifi_task]
          World.initial)).connection_status ≠ 0
    ∧ (event_handler cfg3 esp_event_base_t.WIFI_EVENT WIFI_EVENT_STA_DISCONNECTED
        (run cfg3 [StationStarted, AddressAcquired, Step.wifi_task, Step.wifi_task]
          World.initial)).s_retry_num
        ≠ (run cfg3 [StationStarted, AddressAcquired, Step.wifi_task, Step.wifi_task]
            World.initial).s_retry_num := by
  decide

/-- C4, amended: for a disconnect event received in the Connected state
(`connection_status = 1`, `s_retry_num = 0`, `WIFI_CONNECTED_BIT` and
`WIFI_FAIL_BIT` clear) with `0 < ESP_MAXIMUM_RETRY <= INT_MAX`, `event_handler`
calls `esp_wifi_connect` exactly once and nothing else, leaves the event bits as
they were, so that both signals are still clear, and moves `s_retry_num` from 0
to 1. -/
theorem C4_disconnect_when_connected (cfg : Config) (w : World)
    (hpos : 0 < cfg.ESP_MAXIMUM_RETRY) (hmax : cfg.ESP_MAXIMUM_RETRY ≤ INT_MAX)
    (_hstatus : w.connection_status = 1) (hretry : w.s_retry_num = 0)
    (hc : w.s_wifi_event_group &&& WIFI_CONNECTED_BIT = 0)
    (hf : w.s_wifi_event_group &&& WIFI_FAIL_BIT = 0) :
    (event_handler cfg esp_event_base_t.WIFI_EVENT WIFI_EVENT_STA_DISCONNECTED w).trace
        = w.trace ++ [Call.esp_wifi_connect]
    ∧ (event_handler cfg esp_event_base_t.WIFI_EVENT
          WIFI_EVENT_STA_DISCONNECTED w).s_wifi_event_group = w.s_wifi_event_group
    ∧ (event_handler cfg esp_event_base_t.WIFI_EVENT
          WIFI_EVENT_STA_DISCONNECTED w).s_wifi_event_group &&& WIFI_CONNECTED_BIT = 0
    ∧ (event_handler cfg esp_event_base_t.WIFI_EVENT
          WIFI_EVENT_STA_DISCONNECTED w).s_wifi_event_group &&& WIFI_FAIL_BIT = 0
    ∧ (event_handler cfg esp_event_base_t.WIFI_EVENT
          WIFI_EVENT_STA_DISCONNECTED w).s_retry_num = 1 := by
  have hmin : INT_MIN ≤ w.s_retry_num := by rw [hretry]; decide
  rw [event_handler_retry cfg w hmin hmax (by omega)]
  refine ⟨rfl, rfl, hc, hf, ?_⟩
  show w.s_retry_num + 1 = 1
  omega

/-- C4, amended, at `ESP_MAXIMUM_RETRY = 3` and the Connected state with no bit
pending. -/
theorem C4_disconnect_when_connected_witness :
    (event_handler cfg3 esp_event_base_t.WIFI_EVENT WIFI_EVENT_STA_DISCONNECTED
        { World.initial with connection_status := 1 }).trace
        = [] ++ [Call.esp_wifi_connect]
    ∧ (event_handler cfg3 esp_event_base_t.WIFI_EVENT WIFI_EVENT_STA_DISCONNECTED
        { World.initial with connection_status := 1 }).s_retry_num = 1 :=
  ⟨(C4_disconnect_when_connected cfg3 { World.initial with connection_status := 1 }
      (by decide) (by decide) rfl rfl (by decide) (by decide)).1,
   (C4_disconnect_when_connected cfg3 { World.initial with connection_status := 1 }
      (by decide) (by decide) rfl rfl (by decide) (by decide)).2.2.2.2⟩

/-! ## The `LED_Blink` loop body -/

theorem levels_append (s t : List Call) : levels (s ++ t) = levels s ++ levels t := by
  simp [levels, List.filterMap_append]

theorem lnot_ne_self (x : Nat) : lnot x ≠ x := by
  unfold lnot
  split_ifs with h <;> omega

theorem LED_Blink_loop_level (cfg : Config) (led_state : Nat) (w : World) :
    levels (LED_Blink_loop cfg led_state w).2.trace
      = levels w.trace ++ [if w.connection_status = 0 then led_state else 1] := by
  unfold LED_Blink_loop
  split_ifs with h
  · simp [vTaskDelay, gpio_set_level, levels, Call.level, List.filterMap_append]
  · simp [xEventGroupWaitBits_call, gpio_set_level, levels, Call.level,
      List.filterMap_append]

theorem LED_Blink_loop_led_state (cfg : Config) (led_state : Nat) (w : World) :
    (LED_Blink_loop cfg led_state w).1
      = if w.connection_status = 0 then lnot led_state else led_state := by
  unfold LED_Blink_loop
  split_ifs with h <;> rfl

theorem LED_Blink_loop_connection_status (cfg : Config) (led_state : Nat) (w : World) :
    (LED_Blink_loop cfg led_state w).2.connection_status = w.connection_status := by
  unfold LED_Blink_loop
  split_ifs with h <;> rfl

/-- C6: in one pass through the loop body of `LED_Blink` the level written is 1
and `led_state` is kept when `connection_status` is non-zero, and the level written
is `led_state`, which is then negated, when `connection_status` is 0; `!led_state`
differs from `led_state`, so two passes in a row with `connection_status = 0`
write two different levels, and two passes in a row (the loop does not write
`connection_status`) both write 1 if and only if `connection_status` is
non-zero. -/
theorem C6_led_steady_iff_connected (cfg : Config) (led_state : Nat) (w : World) :
    levels (LED_Blink_loop cfg led_state w).2.trace
        = levels w.trace ++ [if w.connection_status = 0 then led_state else 1]
    ∧ (LED_Blink_loop cfg led_state w).1
        = (if w.connection_status = 0 then lnot led_state else led_state)
    ∧ (LED_Blink_loop cfg led_state w).2.connection_status = w.connection_status
    ∧ lnot led_state ≠ led_state
    ∧ levels (LED_Blink_loop cfg (LED_Blink_loop cfg led_state w).1
          (LED_Blink_loop cfg led_state w).2).2.trace
        = levels w.trace
            ++ (if w.connection_status = 0 then [led_state, lnot led_state] else [1, 1])
    ∧ (levels (LED_Blink_loop cfg (LED_Blink_loop cfg led_state w).1
          (LED_Blink_loop cfg led_state w).2).2.trace = levels w.trace ++ [1, 1]
        ↔ w.connection_status ≠ 0) := by
  have htwo : levels (LED_Blink_loop cfg (LED_Blink_loop cfg led_state w).1
          (LED_Blink_loop cfg led_state w).2).2.trace
        = levels w.trace
            ++ (if w.connection_status = 0 then [led_state, lnot led_state] else [1, 1]) := by
    rw [LED_Blink_loop_level, LED_Blink_loop_level, LED_Blink_loop_led_state,
      LED_Blink_loop_connection_status]
    split_ifs with h <;> simp
  refine ⟨LED_Blink_loop_level cfg led_state w, LED_Blink_loop_led_state cfg led_state w,
    LED_Blink_loop_connection_status cfg led_state w, lnot_ne_self led_state, htwo, ?_⟩
  rw [htwo]
  constructor
  · intro heq h0
    rw [if_pos h0] at heq
    have hl := List.append_cancel_left heq
    simp only [List.cons.injEq, and_true] at hl
    have hne := lnot_ne_self led_state
    omega
  · intro hne
    rw [if_neg hne]

/-! ## Runs of events -/

theorem run_nil (cfg : Config) (w : World) : run cfg [] w = w := rfl

theorem run_cons (cfg : Config) (st : Step) (steps : List Step) (w : World) :
    run cfg (st :: steps) w = run cfg steps (step cfg w st) := rfl

theorem run_append_singleton (cfg : Config) (steps : List Step) (st : Step) (w : World) :
    run cfg (steps ++ [st]) w = step cfg (run cfg steps w) st := by
  simp [run]

theorem step_Disconnected (cfg : Config) (w : World) :
    step cfg w Disconnected
      = event_handler cfg esp_event_base_t.WIFI_EVENT WIFI_EVENT_STA_DISCONNECTED w := rfl

/-- While the limit is not reached, `n` disconnects in a row are `n` retries. -/
theorem run_disconnected_retries (cfg : Config) (hmax : cfg.ESP_MAXIMUM_RETRY ≤ INT_MAX) :
    ∀ (n : Nat) (w : World), INT_MIN ≤ w.s_retry_num →
      w.s_retry_num + (n : Int) ≤ cfg.ESP_MAXIMUM_RETRY →
      run cfg (List.replicate n Disconnected) w
        = { w with s_retry_num := w.s_retry_num + (n : Int),
                   trace := w.trace ++ List.replicate n Call.esp_wifi_connect } := by
  intro n
  induction n with
  | zero =>
    intro w _ _
    simp [run_nil]
  | succ n ih =>
    intro w hmin hle
    have hlt : w.s_retry_num < cfg.ESP_MAXIMUM_RETRY := by omega
    rw [List.replicate_succ, run_cons, step_Disconnected,
      event_handler_retry cfg w hmin hmax hlt]
    rw [ih _ (show INT_MIN ≤ w.s_retry_num + 1 by omega)
      (show w.s_retry_num + 1 + (n : Int) ≤ cfg.ESP_MAXIMUM_RETRY by omega)]
    simp only [World.mk.injEq, true_and]
    constructor
    · omega
    · simp [List.replicate_succ]

/-- The counter stays between 0 and the limit under every step. -/
theorem step_s_retry_num_range (cfg : Config) (hmax : cfg.ESP_MAXIMUM_RETRY ≤ INT_MAX)
    (w : World) (st : Step)
    (h : 0 ≤ w.s_retry_num ∧ w.s_retry_num ≤ cfg.ESP_MAXIMUM_RETRY) :
    0 ≤ (step cfg w st).s_retry_num
      ∧ (step cfg w st).s_retry_num ≤ cfg.ESP_MAXIMUM_RETRY := by
  cases st with
  | wifi_task =>
    show 0 ≤ (ESP_WIFI_Task_step cfg w).s_retry_num
      ∧ (ESP_WIFI_Task_step cfg w).s_retry_num ≤ cfg.ESP_MAXIMUM_RETRY
    rw [ESP_WIFI_Task_step_s_retry_num]
    exact h
  | event event_base event_id =>
    show 0 ≤ (event_handler cfg event_base event_id w).s_retry_num
      ∧ (event_handler cfg event_base event_id w).s_retry_num ≤ cfg.ESP_MAXIMUM_RETRY
    unfold event_handler
    split_ifs with h1 h2 h3 h4
    · exact h
    · have hw : wrapInt32 (w.s_retry_num + 1) = w.s_retry_num + 1 :=
        wrapInt32_of_range _ (by unfold INT_MIN; omega) (by omega)
      show 0 ≤ wrapInt32 (w.s_retry_num + 1)
        ∧ wrapInt32 (w.s_retry_num + 1) ≤ cfg.ESP_MAXIMUM_RETRY
      rw [hw]
      omega
    · show (0 : Int) ≤ 0 ∧ (0 : Int) ≤ cfg.ESP_MAXIMUM_RETRY
      omega
    · show (0 : Int) ≤ 0 ∧ (0 : Int) ≤ cfg.ESP_MAXIMUM_RETRY
      omega
    · exact h

theorem run_s_retry_num_range (cfg : Config) (hmax : cfg.ESP_MAXIMUM_RETRY ≤ INT_MAX) :
    ∀ (steps : List Step) (w : World),
      0 ≤ w.s_retry_num ∧ w.s_retry_num ≤ cfg.ESP_MAXIMUM_RETRY →
      0 ≤ (run cfg steps w).s_retry_num
        ∧ (run cfg steps w).s_retry_num ≤ cfg.ESP_MAXIMUM_RETRY := by
  intro steps
  induction steps with
  | nil =>
    intro w h
    exact h
  | cons st steps ih =>
    intro w h
    rw [run_cons]
    exact ih _ (step_s_retry_num_range cfg hmax w st h)

/-- C2: for every limit `0 <= ESP_MAXIMUM_RETRY <= INT_MAX`, from a state with
`s_retry_num = 0` and `WIFI_FAIL_BIT` clear, after each of the first
`ESP_MAXIMUM_RETRY` disconnects `WIFI_FAIL_BIT` is still clear and the calls made
are retries only; after disconnect number `ESP_MAXIMUM_RETRY + 1`
`WIFI_FAIL_BIT` is set, `s_retry_num = 0`, and `xEventGroupSetBits(WIFI_FAIL_BIT)`
has been called exactly once, as the last call. With `ESP_MAXIMUM_RETRY = 3` the
events station-started and four disconnects end with `WIFI_FAIL_BIT` set by the
fourth disconnect and `s_retry_num = 0`. -/
theorem C2_failed_after_limit_plus_one_disconnects (cfg : Config) (w : World)
    (h0 : 0 ≤ cfg.ESP_MAXIMUM_RETRY) (hmax : cfg.ESP_MAXIMUM_RETRY ≤ INT_MAX)
    (hretry : w.s_retry_num = 0) (hf : w.s_wifi_event_group &&& WIFI_FAIL_BIT = 0) :
    (∀ k : Nat, k ≤ cfg.ESP_MAXIMUM_RETRY.toNat →
        (run cfg (List.replicate k Disconnected) w).s_wifi_event_group &&& WIFI_FAIL_BIT = 0
        ∧ (run cfg (List.replicate k Disconnected) w).s_retry_num = (k : Int)
        ∧ (run cfg (List.replicate k Disconnected) w).trace
            = w.trace ++ List.replicate k Call.esp_wifi_connect)
    ∧ (run cfg (List.replicate (cfg.ESP_MAXIMUM_RETRY.toNat + 1) Disconnected)
          w).s_wifi_event_group &&& WIFI_FAIL_BIT ≠ 0
    ∧ (run cfg (List.replicate (cfg.ESP_MAXIMUM_RETRY.toNat + 1) Disconnected) w).s_retry_num
        = 0
    ∧ (run cfg (List.replicate (cfg.ESP_MAXIMUM_RETRY.toNat + 1) Disconnected) w).trace
        = w.trace ++ List.replicate cfg.ESP_MAXIMUM_RETRY.toNat Call.esp_wifi_connect
            ++ [Call.xEventGroupSetBits WIFI_FAIL_BIT]
    ∧ (run cfg3 [StationStarted, Disconnected, Disconnected, Disconnected]
          World.initial).s_wifi_event_group &&& WIFI_FAIL_BIT = 0
    ∧ run cfg3 [StationStarted, Disconnected, Disconnected, Disconnected, Disconnected]
          World.initial
        = { s_wifi_event_group := WIFI_FAIL_BIT, s_retry_num := 0, connection_status := 0,
            wifi_task_at := TaskPoint.loop_top,
            trace := [Call.esp_wifi_connect, Call.esp_wifi_connect, Call.esp_wifi_connect,
              Call.esp_wifi_connect, Call.xEventGroupSetBits WIFI_FAIL_BIT] } := by
  have hmin : INT_MIN ≤ w.s_retry_num := by rw [hretry]; decide
  have hn : (cfg.ESP_MAXIMUM_RETRY.toNat : Int) = cfg.ESP_MAXIMUM_RETRY :=
    Int.toNat_of_nonneg h0
  have hlast : run cfg (List.replicate (cfg.ESP_MAXIMUM_RETRY.toNat + 1) Disconnected) w
      = { w with s_retry_num := 0,
                 s_wifi_event_group := w.s_wifi_event_group ||| WIFI_FAIL_BIT,
                 trace := w.trace
                   ++ List.replicate cfg.ESP_MAXIMUM_RETRY.toNat Call.esp_wifi_connect
                   ++ [Call.xEventGroupSetBits WIFI_FAIL_BIT] } := by
    rw [List.replicate_succ', run_append_singleton,
      run_disconnected_retries cfg hmax _ w hmin (by omega), step_Disconnected,
      event_handler_exhausted cfg _ (by show cfg.ESP_MAXIMUM_RETRY ≤ w.s_retry_num + _; omega)]
  refine ⟨?_, ?_, ?_, ?_, by decide, by decide⟩
  · intro k hk
    rw [run_disconnected_retries cfg hmax k w hmin (by omega)]
    refine ⟨hf, ?_, rfl⟩
    show w.s_retry_num + (k : Int) = (k : Int)
    omega
  · rw [hlast]
    exact and_or_self_ne_zero _ _ (by decide)
  · rw [hlast]
  · rw [hlast]

/-- C2 at `ESP_MAXIMUM_RETRY = 3`, from the state station-started leaves. -/
theorem C2_failed_after_limit_plus_one_disconnects_witness :
    (run cfg3 (List.replicate (cfg3.ESP_MAXIMUM_RETRY.toNat + 1) Disconnected)
        (run cfg3 [StationStarted] World.initial)).s_wifi_event_group &&& WIFI_FAIL_BIT ≠ 0
    ∧ (run cfg3 (List.replicate (cfg3.ESP_MAXIMUM_RETRY.toNat + 1) Disconnected)
        (run cfg3 [StationStarted] World.initial)).s_retry_num = 0 :=
  ⟨(C2_failed_after_limit_plus_one_disconnects cfg3 (run cfg3 [StationStarted] World.initial)
      (by decide) (by decide) rfl (by decide)).2.1,
   (C2_failed_after_limit_plus_one_disconnects cfg3 (run cfg3 [StationStarted] World.initial)
      (by decide) (by decide) rfl (by decide)).2.2.1⟩

/-- C10: for every limit `0 <= ESP_MAXIMUM_RETRY <= INT_MAX`, in every state
reached from a state with `s_retry_num = 0` by any sequence of events given to
`event_handler` and passes through the loop body of `ESP_WIFI_Task`,
`0 <= s_retry_num <= ESP_MAXIMUM_RETRY`; and wherever the retry branch can run
(`s_retry_num < ESP_MAXIMUM_RETRY`) the increment stays within `int`: wrapping
`s_retry_num + 1` to 32 bits changes nothing. -/
theorem C10_s_retry_num_within_limit (cfg : Config) (w : World) (steps : List Step)
    (h0 : 0 ≤ cfg.ESP_MAXIMUM_RETRY) (hmax : cfg.ESP_MAXIMUM_RETRY ≤ INT_MAX)
    (hretry : w.s_retry_num = 0) :
    0 ≤ (run cfg steps w).s_retry_num
    ∧ (run cfg steps w).s_retry_num ≤ cfg.ESP_MAXIMUM_RETRY
    ∧ ((run cfg steps w).s_retry_num < cfg.ESP_MAXIMUM_RETRY →
        (run cfg steps w).s_retry_num + 1 ≤ INT_MAX
        ∧ wrapInt32 ((run cfg steps w).s_retry_num + 1) = (run cfg steps w).s_retry_num + 1) := by
  have h := run_s_retry_num_range cfg hmax steps w (by rw [hretry]; omega)
  refine ⟨h.1, h.2, ?_⟩
  intro hlt
  have hle : (run cfg steps w).s_retry_num + 1 ≤ INT_MAX := by omega
  exact ⟨hle, wrapInt32_of_range _ (by unfold INT_MIN; omega) hle⟩

/-- C10 at `ESP_MAXIMUM_RETRY = 3` after station-started, two disconnects, a loop
pass and one more disconnect: `s_retry_num` is within 0 and 3. -/
theorem C10_s_retry_num_within_limit_witness :
    0 ≤ (run cfg3 [StationStarted, Disconnected, Disconnected, Step.wifi_task, Disconnected]
          World.initial).s_retry_num
    ∧ (run cfg3 [StationStarted, Disconnected, Disconnected, Step.wifi_task, Disconnected]
          World.initial).s_retry_num ≤ cfg3.ESP_MAXIMUM_RETRY :=
  ⟨(C10_s_retry_num_within_limit cfg3 World.initial
      [StationStarted, Disconnected, Disconnected, Step.wifi_task, Disconnected]
      (by decide) (by decide) rfl).1,
   (C10_s_retry_num_within_limit cfg3 World.initial
      [StationStarted, Disconnected, Disconnected, Step.wifi_task, Disconnected]
      (by decide) (by decide) rfl).2.1⟩

end WifiReconnection
